import Mathlib

/-!
Verification of the workflow-manager plugin core: the rank allocator used by
drag-and-drop (`WorkflowTool.handleDragEnd`), the drop-eligibility computation
(`WorkflowTool.handleDragStart`), the quick-transition permission predicate
(`canUserTransitionToState` in `QuickEditModal.tsx` / `CalendarView.tsx`),
the list filter (`filterItemsAndSort`), the dependency guard
(`DependencyManager.tsx`) and plugin construction (`workflowManager`).

Conventions of the embedding:
* JavaScript optional chaining on opaque id / rank strings is modelled as
  `Option` presence (ids are opaque non-empty strings, so `x ? … : …`
  truthiness on them is a null/undefined guard).
* Boolean-ish JavaScript expressions (`arr.length`, `&&` chains) are modelled
  as `Bool` with their truthiness made explicit.
-/

/-- Modelled from the spec: the `lexorank` npm library is an external
dependency whose source is not part of this repository.  Per spec §3 a rank is
drawn from an order-preserving, densely insertable key space: any two distinct
ranks admit a rank strictly between them, and a global minimum and maximum
rank exist.  We realise the key space as fractions `num / (denPred + 1)`; the
denominator is stored off by one so that every value of the type is a valid
key.  Rank-string equality (`toString() === toString()`) is value equality
of the canonical decimal the library prints, modelled by `LexoRank.eqv`. -/
structure LexoRank where
  num : Int
  denPred : Nat
deriving DecidableEq

/-- Denominator of a rank (always positive by construction). -/
def LexoRank.den (r : LexoRank) : Nat := r.denPred + 1

/-- Strict comparison of two ranks (cross multiplication; denominators are
positive, so this is the usual fraction order). -/
def LexoRank.ltb (a b : LexoRank) : Bool :=
  a.num * (b.den : Int) < b.num * (a.den : Int)

/-- Equality of the canonical strings two ranks print as, i.e. value
equality of the fractions. -/
def LexoRank.eqv (a b : LexoRank) : Bool :=
  a.num * (b.den : Int) == b.num * (a.den : Int)

/-- Modelled from the spec: `LexoRank.min()`, the absolute minimum key. -/
def LexoRank.min : LexoRank := ⟨0, 0⟩

/-- Modelled from the spec: `LexoRank.max()`, the absolute maximum key. -/
def LexoRank.max : LexoRank := ⟨1, 0⟩

/-- Modelled from the spec: `a.between(b)`, a key strictly between two
distinct keys (the library's midpoint; it swaps its arguments internally when
called on the larger one, and the midpoint is symmetric). -/
def LexoRank.between (a b : LexoRank) : LexoRank :=
  ⟨a.num * (b.den : Int) + b.num * (a.den : Int), 2 * a.den * b.den - 1⟩

/-- Modelled from the spec: `r.genNext()`, "the next key after `r`" — a key
strictly between `r` and the absolute maximum (for `r` below the maximum). -/
def LexoRank.genNext (r : LexoRank) : LexoRank :=
  LexoRank.between r LexoRank.max

/-- Modelled from the spec: `r.genPrev()`, a key strictly between the
absolute minimum and `r` (for `r` above the minimum). -/
def LexoRank.genPrev (r : LexoRank) : LexoRank :=
  LexoRank.between LexoRank.min r

/-- A configured workflow state (`src/types`): only the fields the verified
operations read are kept — `id`, the optional `roles` allow-list, the
`requireAssignment` flag (absent modelled as `false`) and the optional
`transitions` allow-list.  Presentation fields (title, color) are omitted. -/
structure State where
  id : String
  roles : Option (List String)
  requireAssignment : Bool
  transitions : Option (List String)
deriving DecidableEq

/-- A role carried by the current user (`currentUser.roles` entries have a
`name` field, compared by equality). -/
structure Role where
  name : String
deriving DecidableEq

/-- The current actor as the transition predicate reads it: an id and a list
of roles (an absent role list behaves like an empty one in the source and is
modelled as `[]`). -/
structure CurrentUser where
  id : String
  roles : List Role
deriving DecidableEq

/-- Rank computation of `WorkflowTool.handleDragEnd`
(`src/unnamed/part_003` lines 157–249).  Inputs:
`destinationStateItems` is the rank of each item already in the destination
column, in order (`none` for an item with a missing/malformed `orderRank`);
`destinationIndex` is `destination.index`; `destinationStateIndex` is
`states.findIndex(s => s.id === destination.droppableId)` (so `-1` when the
droppable is not a configured state); `statesLength` is `states.length`;
the two global ranks are the parses of `data[0]` / `data[data.length-1]`
order ranks. -/
def newOrderRank (destinationStateItems : List (Option LexoRank))
    (destinationIndex : Nat) (destinationStateIndex : Int) (statesLength : Nat)
    (globalStateMinimumRank globalStateMaximumRank : LexoRank) : LexoRank :=
  if destinationStateItems.length = 0 then
    -- only item in state: only the first state gets the absolute minimum
    if destinationStateIndex = 0 then LexoRank.min
    else LexoRank.genNext LexoRank.min
  else if destinationIndex = 0 then
    -- now first item in order
    match destinationStateItems.head? with
    | some (some firstItemOrderRank) => LexoRank.genPrev firstItemOrderRank
    | _ =>
      if destinationStateIndex = 0 then LexoRank.min
      else if LexoRank.eqv LexoRank.min globalStateMinimumRank then
        LexoRank.genNext LexoRank.min
      else LexoRank.between globalStateMinimumRank LexoRank.min
  else if destinationIndex + 1 = destinationStateItems.length then
    -- now last item in order
    match destinationStateItems.getLast? with
    | some (some lastItemOrderRank) => LexoRank.genNext lastItemOrderRank
    | _ =>
      if destinationStateIndex = (statesLength : Int) - 1 then LexoRank.max
      else if LexoRank.eqv LexoRank.max globalStateMaximumRank then
        LexoRank.genPrev LexoRank.max
      else LexoRank.between globalStateMaximumRank LexoRank.max
  else
    -- must be between two items
    let itemBeforeRankParsed :=
      match destinationStateItems.get? (destinationIndex - 1) with
      | some (some itemBeforeRank) => itemBeforeRank
      | _ =>
        if destinationStateIndex = 0 then LexoRank.min
        else globalStateMinimumRank
    let itemAfterRankParsed :=
      match destinationStateItems.get? destinationIndex with
      | some (some itemAfterRank) => itemAfterRank
      | _ =>
        if destinationStateIndex = (statesLength : Int) - 1 then LexoRank.max
        else globalStateMaximumRank
    if LexoRank.eqv itemBeforeRankParsed itemAfterRankParsed then
      LexoRank.genNext itemBeforeRankParsed
    else LexoRank.between itemBeforeRankParsed itemAfterRankParsed

/-- The ids of the states configured with `requireAssignment`
(`WorkflowTool.handleDragStart`, `src/unnamed/part_003` lines 87–89). -/
def statesThatRequireAssignmentIds (states : List State) : List String :=
  (states.filter (fun s => s.requireAssignment)).map (fun s => s.id)

/-- `user?.id ? documentAssignees.includes(user.id) : false`
(`src/unnamed/part_003` lines 93–95). -/
def userIsAssignedToDocument (userId : Option String)
    (documentAssignees : List String) : Bool :=
  match userId with
  | some uid => documentAssignees.contains uid
  | none => false

/-- The exclusions contributed by the assignment rule of
`WorkflowTool.handleDragStart` (`src/unnamed/part_003` lines 84–100): every
`requireAssignment` state is excluded unless the current user is assigned to
the dragged document. -/
def assignmentExclusions (states : List State) (documentAssignees : List String)
    (userId : Option String) : List String :=
  if (statesThatRequireAssignmentIds states).length != 0
      && !(userIsAssignedToDocument userId documentAssignees) then
    statesThatRequireAssignmentIds states
  else []

/-- The exclusions contributed by the transition rule of
`WorkflowTool.handleDragStart` (`src/unnamed/part_003` lines 102–112): when
the source state declares a non-empty transition list, every state not in the
list is excluded. -/
def transitionExclusions (sourceState : State) (states : List State) : List String :=
  match sourceState.transitions with
  | some ts =>
    if ts.length != 0 then
      (states.filter (fun s => !(ts.contains s.id))).map (fun s => s.id)
    else []
  | none => []

/-- The full undroppable-state computation of `WorkflowTool.handleDragStart`
(`src/unnamed/part_003` lines 68–124): union of the two exclusion rules with
the source state filtered back out at the end.  Returns `none` when the
source state id is not a configured state (the source's early return). -/
def computeUndroppableStates (states : List State) (currentStateId : String)
    (documentAssignees : List String) (userId : Option String) :
    Option (List String) :=
  match states.find? (fun s => s.id == currentStateId) with
  | none => none
  | some sourceState =>
    some (((assignmentExclusions states documentAssignees userId)
        ++ (transitionExclusions sourceState states)).filter
      (fun id => id != currentStateId))

/-- The quick-transition permission predicate, translated from
`canUserTransitionToState` (`src/src/components/QuickEditModal.tsx` lines
242–261; the copy in `src/src/components/CalendarView.tsx` lines 344–363 is
identical with the document's assignees read off the calendar event). -/
def canUserTransitionToState (currentUser : Option CurrentUser)
    (targetState : Option State) (documentAssignees : List String) : Bool :=
  match currentUser, targetState with
  | some u, some t =>
    let userRoleCanUpdateState :=
      if u.roles.length != 0
          && (match t.roles with
              | some l => l.length != 0
              | none => false) then
        -- target state limited to roles: current user must hold one of them
        u.roles.any (fun userRole => (t.roles.getD []).contains userRole.name)
      else
        -- `targetState.roles?.length !== 0`
        match t.roles with
        | some l => l.length != 0
        | none => true
    let userAssignmentCanUpdateState :=
      if t.requireAssignment then
        documentAssignees.length != 0 && documentAssignees.contains u.id
      else true
    userRoleCanUpdateState && userAssignmentCanUpdateState
  | _, _ => false

/-- The transition predicate exactly as the claim's words state it: true iff
(a) the target state's roles are empty or absent OR the user holds at least
one listed role, AND (b) `requireAssignment` is false OR the user's id is in
the document's assignees.  Written only to be compared against the source
translation `canUserTransitionToState`. -/
def canUserTransitionToStateClaim (currentUser : Option CurrentUser)
    (targetState : Option State) (documentAssignees : List String) : Bool :=
  match currentUser, targetState with
  | some u, some t =>
    ((t.roles.getD []).isEmpty
        || u.roles.any (fun userRole => (t.roles.getD []).contains userRole.name))
      && (!t.requireAssignment || documentAssignees.contains u.id)
  | _, _ => false

/-- Workflow metadata of a listed document as `filterItemsAndSort` reads it
(`src/types`): state id, optional assignee list, optional order rank. -/
structure WorkflowMetadata where
  state : String
  assignees : Option (List String)
  orderRank : Option String
deriving DecidableEq

/-- A workflow-tracked document row (`SanityDocumentWithMetadata`): document
id (`none` models a missing `_id`), schema type, and optional metadata. -/
structure SanityDocumentWithMetadata where
  _id : Option String
  _type : String
  _metadata : Option WorkflowMetadata
deriving DecidableEq

/-- The user-filter predicate of `filterItemsAndSort`
(`src/src/components/DependencyManager.tsx` lines 344–361): with no selected
users every item passes; with a non-empty selection only items that have
assignees intersecting the selection pass — unassigned items are dropped. -/
def userFilterPasses (selectedUsers : List String)
    (item : SanityDocumentWithMetadata) : Bool :=
  if selectedUsers.length = 0 then true
  else
    let assignees := (item._metadata.bind WorkflowMetadata.assignees).getD []
    if assignees.length > 0 then
      assignees.any (fun assignee => selectedUsers.contains assignee)
    else false

/-- The schema-type filter predicate of `filterItemsAndSort`
(`src/src/components/DependencyManager.tsx` lines 362–371): a `null`
selection disables type filtering, a non-empty selection keeps matching
types, and an empty non-null selection keeps nothing. -/
def typeFilterPasses (selectedSchemaTypes : Option (List String))
    (item : SanityDocumentWithMetadata) : Bool :=
  match selectedSchemaTypes with
  | none => true
  | some ts => if ts.length != 0 then ts.contains item._type else false

/-- The sort key `a._metadata?.orderRank || '0'`
(`src/src/components/DependencyManager.tsx` lines 373–377). -/
def orderRankKey (item : SanityDocumentWithMetadata) : String :=
  (item._metadata.bind WorkflowMetadata.orderRank).getD ("0")

/-- `filterItemsAndSort` (`src/src/components/DependencyManager.tsx` lines
326–380): keep items with an existing document id, in the given state,
passing the user and type filters, sorted ascending by order rank (the
stable `Array.prototype.sort` with an ascending string comparator is modelled
by a stable insertion sort). -/
def filterItemsAndSort (items : List SanityDocumentWithMetadata)
    (stateId : String) (selectedUsers : List String)
    (selectedSchemaTypes : Option (List String)) :
    List SanityDocumentWithMetadata :=
  if items.length = 0 then []
  else
    List.insertionSort (fun a b => orderRankKey a ≤ orderRankKey b)
      ((((items.filter (fun item => item._id.isSome)).filter
        (fun item =>
          match item._metadata with
          | some md => md.state == stateId
          | none => false)).filter
        (fun item => userFilterPasses selectedUsers item)).filter
        (fun item => typeFilterPasses selectedSchemaTypes item))

/-- Rejection reasons of the dependency guard
(`src/src/components/DependencyManager.tsx`). -/
inductive DependencyRejection where
  | duplicate
  | circular
deriving DecidableEq

/-- Result of `handleAddDependency`. -/
inductive AddDependencyResult where
  | ok (newDependencies : List String)
  | rejected (reason : DependencyRejection)
deriving DecidableEq

/-- `hasCircularDependency` (`src/src/components/DependencyManager.tsx` lines
113–117): the source's "simple circular dependency check" only asks whether
the candidate is already in the current document's own dependency list. -/
def hasCircularDependency (currentDependencies : List String)
    (newDependencyId : String) : Bool :=
  currentDependencies.contains newDependencyId

/-- `handleAddDependency` (`src/src/components/DependencyManager.tsx` lines
129–158).  The first parameter is the component's `documentId` prop; the
source's handler declares its candidate parameter with the same name
`documentId`, shadowing the prop, so the prop is never consulted. -/
def handleAddDependency (documentId : String)
    (currentDependencies : List String) (candidateId : String) :
    AddDependencyResult :=
  if currentDependencies.contains candidateId then
    AddDependencyResult.rejected DependencyRejection.duplicate
  else if hasCircularDependency currentDependencies candidateId then
    AddDependencyResult.rejected DependencyRejection.circular
  else AddDependencyResult.ok (currentDependencies ++ [candidateId])

/-- `handleRemoveDependency` (`src/src/components/DependencyManager.tsx`
lines 160–169): unconditional filter of the target id. -/
def handleRemoveDependency (currentDependencies : List String)
    (targetId : String) : List String :=
  currentDependencies.filter (fun id => id != targetId)

/-- Plugin configuration as `workflowManager` receives it
(`src/unnamed/part_000` lines 43–53): both lists optional at the call site. -/
structure WorkflowConfig where
  schemaTypes : Option (List String)
  states : Option (List State)
deriving DecidableEq

/-- Modelled from the spec: `DEFAULT_CONFIG` lives in `src/constants.ts`,
which is not present under `src/`.  Spec §6 says "absence of either is a
fatal configuration error at plugin construction time", so the default
supplies no usable states and no schema types. -/
def DEFAULT_CONFIG : WorkflowConfig := ⟨some [], some []⟩

/-- The states list after the source's `{...DEFAULT_CONFIG, ...config}`
merge and the `states?` access. -/
def effectiveStates (config : Option WorkflowConfig) : List State :=
  (((config.getD DEFAULT_CONFIG).states).orElse (fun _ => DEFAULT_CONFIG.states)).getD []

/-- The schema-types list after the source's merge. -/
def effectiveSchemaTypes (config : Option WorkflowConfig) : List String :=
  (((config.getD DEFAULT_CONFIG).schemaTypes).orElse
    (fun _ => DEFAULT_CONFIG.schemaTypes)).getD []

/-- `workflowManager` construction guard (`src/unnamed/part_000` lines
43–53): throws when the merged states or schema-types list is missing or
empty, otherwise returns the plugin definition (here: the pieces of it the
claims are about). -/
def workflowManager (config : Option WorkflowConfig) :
    Except String (List String × List State) :=
  if (effectiveStates config).length = 0 then
    Except.error ("Workflow plugin: Missing \"states\" in config")
  else if (effectiveSchemaTypes config).length = 0 then
    Except.error ("Workflow plugin: Missing \"schemaTypes\" in config")
  else Except.ok (effectiveSchemaTypes config, effectiveStates config)

/-- The lower end of a strict rank pair lies strictly below the key the
library inserts between the pair. -/
theorem LexoRank.ltb_between_left (a b : LexoRank)
    (h : LexoRank.ltb a b = true) :
    LexoRank.ltb a (LexoRank.between a b) = true := by
  simp only [LexoRank.ltb, LexoRank.between, LexoRank.den, decide_eq_true_eq]
    at h ⊢
  have hd : 0 < 2 * (a.denPred + 1) * (b.denPred + 1) := by positivity
  rw [Nat.sub_add_cancel hd]
  push_cast at h ⊢
  nlinarith [mul_lt_mul_of_pos_right h
    (show (0:ℤ) < (a.denPred:ℤ) + 1 by positivity)]

/-- The key the library inserts between a strict rank pair lies strictly
below the upper end of the pair. -/
theorem LexoRank.ltb_between_right (a b : LexoRank)
    (h : LexoRank.ltb a b = true) :
    LexoRank.ltb (LexoRank.between a b) b = true := by
  simp only [LexoRank.ltb, LexoRank.between, LexoRank.den, decide_eq_true_eq]
    at h ⊢
  have hd : 0 < 2 * (a.denPred + 1) * (b.denPred + 1) := by positivity
  rw [Nat.sub_add_cancel hd]
  push_cast at h ⊢
  nlinarith [mul_lt_mul_of_pos_right h
    (show (0:ℤ) < (b.denPred:ℤ) + 1 by positivity)]

/-- Strictly ordered ranks print as different strings. -/
theorem LexoRank.eqv_eq_false_of_ltb (a b : LexoRank)
    (h : LexoRank.ltb a b = true) :
    LexoRank.eqv a b = false := by
  simp only [LexoRank.ltb, decide_eq_true_eq] at h
  simp only [LexoRank.eqv, beq_eq_false_iff_ne]
  exact ne_of_lt h

/-- C1: when an item is dropped between two existing items whose ranks are
`before` and `after`, the allocator of `handleDragEnd` returns a rank
strictly between them whenever `before < after`, and returns the next key
after the lower neighbor when the two neighbor ranks are equal. -/
theorem C1_between_allocation (destinationStateItems : List (Option LexoRank))
    (destinationIndex : Nat) (destinationStateIndex : Int) (statesLength : Nat)
    (globalMin globalMax before after : LexoRank)
    (h0 : destinationIndex ≠ 0)
    (h1 : destinationIndex + 1 ≠ destinationStateItems.length)
    (hb : destinationStateItems.get? (destinationIndex - 1) = some (some before))
    (ha : destinationStateItems.get? destinationIndex = some (some after)) :
    (LexoRank.ltb before after = true →
      LexoRank.ltb before (newOrderRank destinationStateItems destinationIndex
        destinationStateIndex statesLength globalMin globalMax) = true
      ∧ LexoRank.ltb (newOrderRank destinationStateItems destinationIndex
        destinationStateIndex statesLength globalMin globalMax) after = true)
    ∧ (LexoRank.eqv before after = true →
      newOrderRank destinationStateItems destinationIndex destinationStateIndex
        statesLength globalMin globalMax = LexoRank.genNext before) := by
  have hlen : destinationStateItems.length ≠ 0 := by
    intro hz
    rw [List.length_eq_zero] at hz
    subst hz
    simp at ha
  have hres : newOrderRank destinationStateItems destinationIndex
      destinationStateIndex statesLength globalMin globalMax
      = if LexoRank.eqv before after then LexoRank.genNext before
        else LexoRank.between before after := by
    unfold newOrderRank
    rw [if_neg hlen, if_neg h0, if_neg h1]
    simp only [hb, ha]
  rw [hres]
  constructor
  · intro hlt
    rw [if_neg (by simp [LexoRank.eqv_eq_false_of_ltb before after hlt])]
    exact ⟨LexoRank.ltb_between_left before after hlt,
      LexoRank.ltb_between_right before after hlt⟩
  · intro heq
    rw [if_pos heq]

/-- Witness for C1 at a concrete board: ranks `0`, `1/2`, `1` in the
destination column, dropping at index `1`. -/
theorem C1_between_allocation_witness :
    LexoRank.ltb ⟨0, 0⟩ (newOrderRank [some ⟨0, 0⟩, some ⟨1, 1⟩, some ⟨1, 0⟩]
      1 1 3 ⟨0, 0⟩ ⟨1, 0⟩) = true
    ∧ LexoRank.ltb (newOrderRank [some ⟨0, 0⟩, some ⟨1, 1⟩, some ⟨1, 0⟩]
      1 1 3 ⟨0, 0⟩ ⟨1, 0⟩) ⟨1, 1⟩ = true :=
  (C1_between_allocation [some ⟨0, 0⟩, some ⟨1, 1⟩, some ⟨1, 0⟩] 1 1 3
    ⟨0, 0⟩ ⟨1, 0⟩ ⟨0, 0⟩ ⟨1, 1⟩ (by decide) (by decide) (by decide)
    (by decide)).1 (by decide)

/-- C4: dropping into a state whose column is empty yields the absolute
minimum key exactly when the destination is the first configured state, and
otherwise the key immediately after the absolute minimum, which is never the
absolute minimum itself (it lies strictly above it). -/
theorem C4_empty_state_allocation (destinationIndex : Nat)
    (destinationStateIndex : Int) (statesLength : Nat)
    (globalMin globalMax : LexoRank) :
    (newOrderRank [] destinationIndex destinationStateIndex statesLength
        globalMin globalMax
      = if destinationStateIndex = 0 then LexoRank.min
        else LexoRank.genNext LexoRank.min)
    ∧ LexoRank.genNext LexoRank.min ≠ LexoRank.min
    ∧ LexoRank.ltb LexoRank.min (LexoRank.genNext LexoRank.min) = true := by
  refine ⟨?_, by decide, by decide⟩
  unfold newOrderRank
  simp

/-- C5: the set of undroppable states computed on drag start never contains
the dragged document's current source state, for every configuration,
assignee set and user. -/
theorem C5_source_state_never_undroppable (states : List State)
    (currentStateId : String) (documentAssignees : List String)
    (userId : Option String) (result : List String)
    (h : computeUndroppableStates states currentStateId documentAssignees
      userId = some result) :
    currentStateId ∉ result := by
  unfold computeUndroppableStates at h
  cases hf : states.find? (fun s => s.id == currentStateId) with
  | none =>
    rw [hf] at h
    simp at h
  | some sourceState =>
    rw [hf] at h
    simp only [Option.some.injEq] at h
    subst h
    intro hmem
    have hkeep := (List.mem_filter.mp hmem).2
    simp at hkeep

/-- Witness for C5: a one-state board whose state is the drag source. -/
theorem C5_source_state_never_undroppable_witness :
    computeUndroppableStates [⟨("a"), none, false, none⟩] ("a") [] none
      = some []
    ∧ ("a" : String) ∉ ([] : List String) :=
  ⟨by decide, C5_source_state_never_undroppable
    [⟨("a"), none, false, none⟩] ("a") [] none [] (by decide)⟩

/-- C6 counterexample: a `requireAssignment` state that is itself the drag
source is re-admitted at the end of `handleDragStart`, so with the current
user absent from the assignees the computed undroppable set still does not
contain it — the claim's unconditional "is in the computed undroppable set"
fails at this input. -/
theorem C6_counterexample :
    (⟨("a"), none, true, none⟩ : State).requireAssignment = true
    ∧ userIsAssignedToDocument (some ("u")) [] = false
    ∧ computeUndroppableStates [⟨("a"), none, true, none⟩] ("a") []
        (some ("u")) = some []
    ∧ ("a" : String) ∉ ([] : List String) :=
  ⟨rfl, rfl, by decide, by decide⟩

/-- C6 (amended): for every configured `requireAssignment` state other than
the document's current source state, the state is in the computed undroppable
set whenever the current user's id is absent from the dragged document's
assignees; and once the user is assigned, the assignment rule contributes no
exclusions at all. -/
theorem C6_requireAssignment_exclusion (states : List State) (s : State)
    (currentStateId : String) (documentAssignees : List String)
    (userId : Option String) (result : List String)
    (hs : s ∈ states) (hreq : s.requireAssignment = true)
    (hne : s.id ≠ currentStateId)
    (h : computeUndroppableStates states currentStateId documentAssignees
      userId = some result) :
    (userIsAssignedToDocument userId documentAssignees = false →
      s.id ∈ result)
    ∧ (userIsAssignedToDocument userId documentAssignees = true →
      assignmentExclusions states documentAssignees userId = []) := by
  have hmemid : s.id ∈ statesThatRequireAssignmentIds states :=
    List.mem_map.mpr ⟨s, List.mem_filter.mpr ⟨hs, hreq⟩, rfl⟩
  constructor
  · intro hun
    have hlen : (statesThatRequireAssignmentIds states).length ≠ 0 := by
      intro hz
      rw [List.length_eq_zero] at hz
      rw [hz] at hmemid
      simp at hmemid
    have hA : assignmentExclusions states documentAssignees userId
        = statesThatRequireAssignmentIds states := by
      unfold assignmentExclusions
      rw [hun]
      simp [bne_iff_ne, hlen]
    unfold computeUndroppableStates at h
    cases hf : states.find? (fun st => st.id == currentStateId) with
    | none =>
      rw [hf] at h
      simp at h
    | some sourceState =>
      rw [hf] at h
      simp only [Option.some.injEq] at h
      subst h
      refine List.mem_filter.mpr ⟨List.mem_append.mpr (Or.inl ?_), ?_⟩
      · rw [hA]
        exact hmemid
      · simp [hne]
  · intro hass
    unfold assignmentExclusions
    rw [hass]
    simp

/-- Witness for C6: two states, dragging from `a`; `b` requires assignment
and the user is unassigned, so `b` lands in the computed set. -/
theorem C6_requireAssignment_exclusion_witness :
    (userIsAssignedToDocument (some ("u")) [] = false →
      ("b" : String) ∈ (["b"] : List String))
    ∧ (userIsAssignedToDocument (some ("u")) [] = true →
      assignmentExclusions
        [⟨("a"), none, false, none⟩, ⟨("b"), none, true, none⟩] []
        (some ("u")) = []) :=
  C6_requireAssignment_exclusion
    [⟨("a"), none, false, none⟩, ⟨("b"), none, true, none⟩]
    ⟨("b"), none, true, none⟩ ("a") [] (some ("u")) ["b"]
    (by decide) (by decide) (by decide) (by decide)

/-- C3: evaluating the dependency guard at the claim's three sample inputs.
The first conjunct is the divergence: `addDependency(doc, doc, [])` is
accepted with the self-edge appended, not rejected as circular — the
guard's circular check only inspects the current dependency list, never the
document's own id.  The duplicate rejection and the plain append behave as
claimed. -/
theorem C3_self_dependency_accepted :
    handleAddDependency ("d") [] ("d") = AddDependencyResult.ok ([("d")])
    ∧ handleAddDependency ("d") [("x")] ("x")
      = AddDependencyResult.rejected DependencyRejection.duplicate
    ∧ handleAddDependency ("d") [] ("y") = AddDependencyResult.ok ([("y")]) :=
  ⟨by decide, by decide, by decide⟩

/-- C10: `hasCircularDependency` holds exactly when the candidate is already
in the current dependency list, and that case is always intercepted first by
the duplicate check, so no call to `handleAddDependency` ever reports the
circular rejection. -/
theorem C10_circular_branch_unreachable :
    (∀ (currentDependencies : List String) (candidateId : String),
      hasCircularDependency currentDependencies candidateId = true ↔
        candidateId ∈ currentDependencies)
    ∧ ∀ (documentId candidateId : String)
        (currentDependencies : List String),
      handleAddDependency documentId currentDependencies candidateId
        ≠ AddDependencyResult.rejected DependencyRejection.circular := by
  constructor
  · intro deps c
    simp [hasCircularDependency]
  · intro docId c deps h
    unfold handleAddDependency hasCircularDependency at h
    by_cases hc : deps.contains c = true
    · rw [if_pos hc] at h
      simp at h
    · rw [if_neg hc, if_neg hc] at h
      simp at h

/-- C8: adding a fresh dependency appends it, removing it afterwards
restores the original list; removal always deletes the target when present
and is a no-op otherwise. -/
theorem C8_dependency_roundtrip (d x : String) (deps : List String)
    (h : x ∉ deps) :
    handleAddDependency d deps x = AddDependencyResult.ok (deps ++ [x])
    ∧ handleRemoveDependency (deps ++ [x]) x = deps
    ∧ handleRemoveDependency deps x = deps
    ∧ ∀ (l : List String) (y : String), y ∉ handleRemoveDependency l y := by
  have hself : deps.filter (fun id => id != x) = deps :=
    List.filter_eq_self.mpr (fun a ha => by
      simp only [bne_iff_ne, ne_eq, decide_eq_true_eq]
      intro he
      exact h (he ▸ ha))
  have hc : deps.contains x = false := by
    simp [h]
  refine ⟨?_, ?_, hself, ?_⟩
  · unfold handleAddDependency hasCircularDependency
    rw [hc]
    simp
  · unfold handleRemoveDependency
    rw [List.filter_append, hself]
    simp
  · intro l y hy
    have := (List.mem_filter.mp hy).2
    simp at this

/-- Witness for C8 with an empty starting dependency list. -/
theorem C8_dependency_roundtrip_witness :
    (("y" : String) ∉ ([] : List String))
    ∧ (handleAddDependency ("d") [] ("y")
        = AddDependencyResult.ok (([] : List String) ++ [("y")])
      ∧ handleRemoveDependency (([] : List String) ++ [("y")]) ("y") = []
      ∧ handleRemoveDependency [] ("y") = []
      ∧ ∀ (l : List String) (y : String),
          y ∉ handleRemoveDependency l y) :=
  ⟨by decide, C8_dependency_roundtrip ("d") ("y") [] (by decide)⟩

/-- C2 counterexample: a user holding no roles at all is admitted by the
source's role check even against a role-restricted target state (the
`currentUser.roles?.length && targetState.roles?.length` guard falls through
to `targetState.roles?.length !== 0`), whereas the claim's condition "the
user holds at least one of the listed roles" is false there. -/
theorem C2_counterexample :
    canUserTransitionToState (some ⟨("u"), []⟩)
      (some ⟨("review"), some [("administrator")], false, none⟩) [] = true
    ∧ canUserTransitionToStateClaim (some ⟨("u"), []⟩)
      (some ⟨("review"), some [("administrator")], false, none⟩) [] = false :=
  ⟨by decide, by decide⟩

/-- C2 (amended): `canUserTransitionToState` returns true iff (a) the target
state's `roles` field is absent, or it is a non-empty list and either the
user's role list is empty or the user holds one of the listed roles (an
explicitly empty `roles` list blocks every user), and (b) `requireAssignment`
is false or the user's id is among the document's assignees. -/
theorem ne_nil_and_mem_iff_mem {α : Type} (a : α) (l : List α) :
    (l ≠ [] ∧ a ∈ l) ↔ a ∈ l :=
  ⟨And.right, fun h => ⟨List.ne_nil_of_mem h, h⟩⟩

theorem C2_canUserTransitionToState_amended (u : CurrentUser) (t : State)
    (documentAssignees : List String) :
    canUserTransitionToState (some u) (some t) documentAssignees = true ↔
      ((t.roles = none
          ∨ (t.roles.getD [] ≠ []
            ∧ (u.roles = [] ∨ ∃ r ∈ u.roles, r.name ∈ t.roles.getD [])))
        ∧ (t.requireAssignment = true → u.id ∈ documentAssignees)) := by
  obtain ⟨tid, troles, treq, ttrans⟩ := t
  obtain ⟨uid, uroles⟩ := u
  simp only [canUserTransitionToState]
  cases troles with
  | none =>
    cases treq <;> cases uroles <;>
      simp [List.any_eq_true, List.length_eq_zero, ne_nil_and_mem_iff_mem]
  | some l =>
    cases treq <;> cases uroles <;> cases l <;>
      simp [List.any_eq_true, List.length_eq_zero, bne_iff_ne,
        ne_nil_and_mem_iff_mem]

/-- C7: when a non-empty user filter is active, every item whose assignee
set is empty (or absent) is excluded from `filterItemsAndSort`'s result, even
if no other filter rule would exclude it; with an empty user selection the
user rule excludes nothing. -/
theorem C7_user_filter_hides_unassigned
    (items : List SanityDocumentWithMetadata) (stateId : String)
    (selectedUsers : List String) (selectedSchemaTypes : Option (List String))
    (item : SanityDocumentWithMetadata)
    (husers : selectedUsers ≠ [])
    (hunassigned : (item._metadata.bind WorkflowMetadata.assignees).getD []
      = []) :
    item ∉ filterItemsAndSort items stateId selectedUsers selectedSchemaTypes
    ∧ ∀ it : SanityDocumentWithMetadata, userFilterPasses [] it = true := by
  constructor
  · intro hmem
    unfold filterItemsAndSort at hmem
    by_cases hlen : items.length = 0
    · rw [if_pos hlen] at hmem
      simp at hmem
    · rw [if_neg hlen] at hmem
      have hmem2 := (List.mem_insertionSort
        (fun a b => orderRankKey a ≤ orderRankKey b)).mp hmem
      have hpass := (List.mem_filter.mp ((List.mem_filter.mp hmem2).1)).2
      unfold userFilterPasses at hpass
      rw [if_neg (by simpa [List.length_eq_zero] using husers)] at hpass
      rw [hunassigned] at hpass
      simp at hpass
  · intro it
    rfl

/-- Witness for C7: a single unassigned item in the right state is hidden by
an active user filter. -/
theorem C7_user_filter_hides_unassigned_witness :
    ((["u1"] : List String) ≠ []
      ∧ ((⟨some ("doc1"), ("post"), some ⟨("review"), some [], some ("r")⟩⟩ :
          SanityDocumentWithMetadata)._metadata.bind
          WorkflowMetadata.assignees).getD [] = [])
    ∧ ((⟨some ("doc1"), ("post"), some ⟨("review"), some [], some ("r")⟩⟩ :
        SanityDocumentWithMetadata)
      ∉ filterItemsAndSort
        [⟨some ("doc1"), ("post"), some ⟨("review"), some [], some ("r")⟩⟩]
        ("review") [("u1")] none
      ∧ ∀ it : SanityDocumentWithMetadata, userFilterPasses [] it = true) :=
  ⟨⟨by decide, by rfl⟩,
    C7_user_filter_hides_unassigned
      [⟨some ("doc1"), ("post"), some ⟨("review"), some [], some ("r")⟩⟩]
      ("review") [("u1")] none
      ⟨some ("doc1"), ("post"), some ⟨("review"), some [], some ("r")⟩⟩
      (by decide) (by rfl)⟩

/-- C9: plugin construction fails exactly when the states list effective
after the default merge is empty, or the schema-types list is; with both
non-empty it succeeds and returns them. -/
theorem C9_plugin_construction (config : Option WorkflowConfig) :
    ((∃ msg, workflowManager config = Except.error msg) ↔
      (effectiveStates config = [] ∨ effectiveSchemaTypes config = []))
    ∧ (effectiveStates config ≠ [] → effectiveSchemaTypes config ≠ [] →
      workflowManager config
        = Except.ok (effectiveSchemaTypes config, effectiveStates config)) := by
  by_cases h1 : effectiveStates config = []
  · constructor
    · simp [workflowManager, h1]
    · intro hne
      exact absurd h1 hne
  · by_cases h2 : effectiveSchemaTypes config = []
    · constructor
      · simp [workflowManager, h1, h2]
      · intro _ hne
        exact absurd h2 hne
    · constructor
      · simp [workflowManager, h1, h2]
      · intro _ _
        simp [workflowManager, h1, h2]
